import Mathlib

/-!
Verification of `src/accessories/LocalLivestreamManager.ts`.

The TypeScript source is shallowly embedded: byte buffers become lists of
byte values, the manager / proxy classes become explicit state records,
event handlers and timer callbacks become state-transition functions, and
JavaScript array references (the `iFrameCache` array is handed to each
`VideostreamProxy` by reference) are modelled with an explicit heap of
arrays addressed by indices.
-/

set_option maxHeartbeats 1000000

/-- A media payload: a byte buffer, modelled as its list of byte values. -/
abbrev Buf := List Nat

/-- Embeds `LocalLivestreamManager.isIFrame` (source lines 403-414): the
buffer must be non-empty and at least 5 bytes long; `startcode` is the first
five bytes, and the test checks whether byte 3 or byte 4 lies in the fixed
code set. -/
def isIFrame (data : Buf) : Bool :=
  let validValues : List Nat := [64, 66, 68, 78, 101, 103]
  if data.length > 0 then
    if data.length ≥ 5 then
      let startcode := data.take 5
      validValues.contains (startcode.getD 3 0) || validValues.contains (startcode.getD 4 0)
    else false
  else false

/-- The fixed grace period before a cached, unused livestream is terminated
(source line 129). -/
def SECONDS_UNTIL_TERMINATION_AFTER_LAST_USED : Nat := 45

/-- Upstream-facing effect of `removeProxyStream` once the proxy set becomes
empty: either a deferred termination is scheduled (with its delay in
seconds), or the livestream is stopped immediately, or nothing happens. -/
inductive DetachAction where
  | noAction
  | scheduleTermination (delaySeconds : Nat)
  | stopNow
  deriving DecidableEq

/-- Embeds the guard on source line 389:
`((maxStreamingDuration - runtime) > maxStreamingDuration*0.2) && (maxStreamingDuration - runtime) > 20 && this.cacheEnabled`.
Durations are in seconds, modelled as rationals. -/
def sufficientRemainingDuration (cacheEnabled : Bool)
    (maxStreamingDuration runtime : ℚ) : Bool :=
  (decide (maxStreamingDuration - runtime > maxStreamingDuration * (0.2 : ℚ)) &&
    decide (maxStreamingDuration - runtime > 20)) && cacheEnabled

/-- Embeds `removeProxyStream` (source lines 367-401) at the level the
termination policy needs: proxy streams are represented by their ids; if the
id is attached it is removed, and when the set becomes empty the policy of
lines 387-398 picks the action. -/
def removeProxyStream (proxyStreams : List Nat) (id : Nat)
    (cacheEnabled : Bool) (maxStreamingDuration runtime : ℚ) :
    List Nat × DetachAction :=
  if id ∈ proxyStreams then
    let remaining := proxyStreams.erase id
    if remaining.length = 0 then
      if sufficientRemainingDuration cacheEnabled maxStreamingDuration runtime then
        (remaining, DetachAction.scheduleTermination SECONDS_UNTIL_TERMINATION_AFTER_LAST_USED)
      else
        (remaining, DetachAction.stopNow)
    else
      (remaining, DetachAction.noAction)
  else
    (proxyStreams, DetachAction.noAction)

/-- Embeds the grace-termination timer callback (source lines 250-254): when
it fires it stops the livestream only if `proxyStreams.size <= 0`. Returns
`true` iff an upstream stop request is issued. -/
def stopOnGraceTimer (proxyStreams : List Nat) : Bool :=
  decide (proxyStreams.length ≤ 0)

/-- State of the manager while attach calls wait for the livestream to
start: embeds the fields used by `startAndGetLocalLiveStream` (source lines
212-243). `connectionTimeout` is the single shared timer field, tagged with
the pending call that owns the armed timer (each new call clears the
previous timer, lines 220-222). `pending` lists unresolved attach calls in
call order, `failed` the calls rejected by the timer callback together with
the reject reason, and `startRequests` counts upstream
`startStationLivestream` commands. -/
structure StartWaitState where
  livestreamIsStarting : Bool
  startRequests : Nat
  pending : List Nat
  connectionTimeout : Option Nat
  nextCall : Nat
  failed : List (Nat × String)

/-- Manager start-wait state before any attach call. -/
def startWaitInit : StartWaitState :=
  { livestreamIsStarting := false, startRequests := 0, pending := [],
    connectionTimeout := Option.none, nextCall := 0, failed := [] }

/-- Embeds one call of `startAndGetLocalLiveStream` up to its suspension
point (source lines 212-227): if `livestreamIsStarting` is not set, set it
and issue the upstream start request (lines 215-218); clear any armed
connection timer and arm a fresh 5-second timer owned by this call
(lines 220-227); the call then waits as pending. -/
def startAndGetLocalLiveStream (s : StartWaitState) : StartWaitState :=
  let s1 :=
    if s.livestreamIsStarting then s
    else { s with livestreamIsStarting := true, startRequests := s.startRequests + 1 }
  { s1 with
    connectionTimeout := some s1.nextCall,
    pending := s1.pending ++ [s1.nextCall],
    nextCall := s1.nextCall + 1 }

/-- Embeds the connection-timer callback (source lines 223-227): if a timer
is armed, clear the `livestreamIsStarting` flag and reject the pending call
that owns the timer with the error `'no started livestream found'`; calls
whose timers were cleared by later calls are not rejected. -/
def connectionTimeoutFires (s : StartWaitState) : StartWaitState :=
  match s.connectionTimeout with
  | Option.none => s
  | some c =>
      { s with
        livestreamIsStarting := false,
        failed := s.failed ++ [(c, "no started livestream found")],
        pending := s.pending.erase c,
        connectionTimeout := Option.none }

/-- `n` attach calls arriving while no session exists and no start has yet
completed or timed out. -/
def attachCalls : Nat → StartWaitState
  | 0 => startWaitInit
  | n + 1 => startAndGetLocalLiveStream (attachCalls n)

/-- Splits a pending queue the way the `_read` drain loop does (source lines
39-48 and 107-117): `capacity` is the number of `push` calls the consumer
answers with `true` before its internal buffer fills. Returns the buffers
pushed to the consumer in order, the remaining queue, and the final push
return value; the buffer whose push returns `false` is still pushed before
the loop stops, exactly as in the `while` loop. -/
def drainQueue : List Buf → Nat → List Buf × List Buf × Bool
  | [], _ => ([], [], true)
  | d :: rest, 0 => ([d], rest, false)
  | d :: rest, capacity + 1 =>
      let r := drainQueue rest capacity
      (d :: r.1, r.2.1, r.2.2)

/-- State of one proxy outlet considered on its own: `AudiostreamProxy`
(source lines 16-49) and the identical queue engine of `VideostreamProxy`
(lines 73-117; its extra inactivity timer does not touch the queue).
`cacheData` is the private FIFO queue field and `pushNewDataImmediately` the
immediate-push flag; `delivered` (buffers pushed to the consumer, in order)
and `produced` (buffers handed to the outlet, in order) are observation-only
history fields. -/
structure OutletState where
  cacheData : List Buf
  pushNewDataImmediately : Bool
  delivered : List Buf
  produced : List Buf

/-- Embeds `newAudioData` / `newVideoData` (source lines 25-32 and 73-87):
in immediate-push mode the buffer is pushed directly and the flag cleared,
otherwise the buffer is appended to the queue. -/
def newOutletData (st : OutletState) (d : Buf) : OutletState :=
  if st.pushNewDataImmediately then
    { st with pushNewDataImmediately := false,
              delivered := st.delivered ++ [d], produced := st.produced ++ [d] }
  else
    { st with cacheData := st.cacheData ++ [d], produced := st.produced ++ [d] }

/-- Embeds `_read` (source lines 39-48 and 107-117): drain the queue front
to back while pushes succeed, and re-enter immediate-push mode exactly when
the final push return value was `true`. -/
def readOutlet (st : OutletState) (capacity : Nat) : OutletState :=
  let r := drainQueue st.cacheData capacity
  { st with cacheData := r.2.1,
            delivered := st.delivered ++ r.1,
            pushNewDataImmediately := if r.2.2 then true else st.pushNewDataImmediately }

/-- An event an isolated outlet can receive: a produced buffer, or a
consumer read with a given accept capacity. -/
inductive OutletOp where
  | produce (d : Buf)
  | consumerRead (capacity : Nat)

/-- One outlet event. -/
def outletStep (st : OutletState) (op : OutletOp) : OutletState :=
  match op with
  | OutletOp.produce d => newOutletData st d
  | OutletOp.consumerRead c => readOutlet st c

/-- A freshly constructed proxy outlet: empty queue, immediate-push off. -/
def outletInit : OutletState :=
  { cacheData := [], pushNewDataImmediately := false, delivered := [], produced := [] }

/-- Run a sequence of outlet events from the initial state. -/
def runOutlet (ops : List OutletOp) : OutletState :=
  ops.foldl outletStep outletInit

/-- A `VideostreamProxy` as wired by `getProxyStream` (source lines 334-349
and 63-71): `cacheRef` is the heap index of the array stored in the proxy
field `cacheData` — the constructor executes `this.cacheData = cacheData`,
so the proxy holds the very array object it was given, not a copy.
`delivered` records the buffers pushed to this proxy's consumer. -/
structure VProxy where
  id : Nat
  cacheRef : Nat
  pushNewDataImmediately : Bool
  delivered : List Buf

/-- Manager state for the cache/fan-out behaviour, with JavaScript array
references made explicit: `heap` lists every buffer array allocated so far,
and `iFrameCacheRef` is the index of the array currently referenced by
`this.iFrameCache`. -/
structure ManagerState where
  heap : List (List Buf)
  iFrameCacheRef : Nat
  proxyStreams : List VProxy
  livestreamCount : Nat

/-- The array a reference currently points at. -/
def getArr (s : ManagerState) (r : Nat) : List Buf := s.heap.getD r []

/-- Overwrite the array behind a reference (a JavaScript in-place mutation
such as `push` or `shift`, visible through every alias of the array). -/
def setArr (s : ManagerState) (r : Nat) (a : List Buf) : ManagerState :=
  { s with heap := s.heap.set r a }

/-- Manager state right after session initialization: `this.iFrameCache`
points at a fresh empty array (source line 185). -/
def managerInit : ManagerState :=
  { heap := [[]], iFrameCacheRef := 0, proxyStreams := [], livestreamCount := 0 }

/-- Embeds `VideostreamProxy.newVideoData` (source lines 73-87): in
immediate-push mode deliver directly, otherwise `this.cacheData.push(data)`
mutates the referenced array in place. -/
def newVideoData (s : ManagerState) (p : VProxy) (d : Buf) : ManagerState × VProxy :=
  if p.pushNewDataImmediately then
    (s, { p with pushNewDataImmediately := false, delivered := p.delivered ++ [d] })
  else
    (setArr s p.cacheRef (getArr s p.cacheRef ++ [d]), p)

/-- The `proxyStreams.forEach` fan-out of the videostream data handler
(source lines 290-292). -/
def fanoutVideo (s : ManagerState) (d : Buf) : ManagerState :=
  let r := s.proxyStreams.foldl
    (fun acc p =>
      let sp := newVideoData acc.1 p d
      (sp.1, acc.2 ++ [sp.2]))
    (s, ([] : List VProxy))
  { r.1 with proxyStreams := r.2 }

/-- Embeds the videostream `data` handler installed by
`onStationLivestreamStart` (source lines 283-293): a key frame makes
`this.iFrameCache = [data]` point at a fresh one-element array; a
non-key-frame buffer is pushed in place onto the referenced array if it is
non-empty; then the buffer is forwarded to every attached proxy. -/
def onVideoData (s : ManagerState) (d : Buf) : ManagerState :=
  let s1 :=
    if isIFrame d then
      { s with heap := s.heap ++ [[d]], iFrameCacheRef := s.heap.length }
    else if (getArr s s.iFrameCacheRef).length > 0 then
      setArr s s.iFrameCacheRef (getArr s s.iFrameCacheRef ++ [d])
    else s
  fanoutVideo s1 d

/-- Embeds `getProxyStream` (source lines 334-349) for an active session:
issue the next id (wrapping the counter past 1024) and construct a new
`VideostreamProxy` handed `this.iFrameCache` — the reference itself. -/
def getProxyStream (s : ManagerState) : ManagerState × VProxy :=
  let newId := s.livestreamCount
  let next := if s.livestreamCount + 1 > 1024 then 0 else s.livestreamCount + 1
  let p : VProxy := { id := newId, cacheRef := s.iFrameCacheRef,
                      pushNewDataImmediately := false, delivered := [] }
  ({ s with proxyStreams := s.proxyStreams ++ [p], livestreamCount := next }, p)

/-- An attach: `getProxyStream`, keeping only the manager state. -/
def attachProxy (s : ManagerState) : ManagerState := (getProxyStream s).1

/-- Embeds `VideostreamProxy._read` (source lines 107-117) for the proxy at
position `i`: drain the referenced array front to back while pushes succeed
— `shift()` mutates the array in place, so the mutation is visible through
every alias of it. -/
def readProxy (s : ManagerState) (i : Nat) (capacity : Nat) : ManagerState :=
  match s.proxyStreams.get? i with
  | Option.none => s
  | some p =>
      let r := drainQueue (getArr s p.cacheRef) capacity
      let p' := { p with
        delivered := p.delivered ++ r.1,
        pushNewDataImmediately := if r.2.2 then true else p.pushNewDataImmediately }
      let s' := setArr s p.cacheRef r.2.1
      { s' with proxyStreams := s'.proxyStreams.set i p' }

/-- A concrete key-frame buffer: byte 3 is 101, in the code set. -/
def kFrame : Buf := [0, 0, 0, 101, 0]

/-- A concrete non-key-frame buffer: bytes 3 and 4 are outside the set. -/
def pFrame : Buf := [1, 1, 1, 1, 1]

/-- Session receives the key frame: live cache holds `[kFrame]`. -/
def aliasState1 : ManagerState := onVideoData managerInit kFrame

/-- A consumer attaches while the cache holds `[kFrame]`. -/
def aliasState2 : ManagerState := attachProxy aliasState1

/-- One non-key-frame buffer arrives after the attach. -/
def aliasState3 : ManagerState := onVideoData aliasState2 pFrame

/-- The consumer then drains its outlet completely. -/
def aliasState4 : ManagerState := readProxy aliasState3 0 10

/-- Consumer B attaches while the cache still holds `[kFrame]`. -/
def twoConsumers : ManagerState := attachProxy aliasState2

/-- Consumer A (attached first) drains its outlet. -/
def twoConsumersReadA : ManagerState := readProxy twoConsumers 0 10

/-- Consumer B then drains its outlet. -/
def twoConsumersReadB : ManagerState := readProxy twoConsumersReadA 1 10

/-- An attach or detach event for the consumer-id model. -/
inductive LsOp where
  | attach
  | detach (id : Nat)

/-- Manager state for consumer-id tracking: `livestreamCount` is the wrapped
counter of `getProxyStream` (source lines 336-340); `attachSeq` counts every
attach ever made (history only); `attached` holds one entry per currently
attached proxy pair, as (attach sequence number, issued id). -/
structure LsState where
  livestreamCount : Nat
  attachSeq : Nat
  attached : List (Nat × Nat)

/-- Fresh manager: counter 0, nothing attached. -/
def lsInit : LsState := { livestreamCount := 0, attachSeq := 0, attached := [] }

/-- Embeds the id issuance of `getProxyStream` (source lines 334-349):
`id = livestreamCount`, then the counter is incremented and reset to 0 once
it exceeds 1024. -/
def lsAttach (s : LsState) : LsState :=
  let newId := s.livestreamCount
  let next := if s.livestreamCount + 1 > 1024 then 0 else s.livestreamCount + 1
  { livestreamCount := next, attachSeq := s.attachSeq + 1,
    attached := s.attached ++ [(s.attachSeq, newId)] }

/-- Embeds the removal of `removeProxyStream` (source lines 367-375): the
attached pair carrying the given id is removed. -/
def lsDetach (s : LsState) (id : Nat) : LsState :=
  { s with attached := s.attached.eraseP (fun e => e.2 == id) }

/-- One attach or detach event. -/
def lsStep (s : LsState) (op : LsOp) : LsState :=
  match op with
  | LsOp.attach => lsAttach s
  | LsOp.detach id => lsDetach s id

/-- Run a sequence of attach/detach events from the fresh manager. -/
def lsRun (ops : List LsOp) : LsState := ops.foldl lsStep lsInit

/-- One attach immediately followed by the matching detach. -/
def lsAttachDetach (s : LsState) : LsState := lsDetach (lsAttach s) s.livestreamCount

/-- `n` attach/detach cycles. -/
def lsCycles : Nat → LsState → LsState
  | 0, s => s
  | n + 1, s => lsCycles n (lsAttachDetach s)

/-- A consumer attaches and stays; 1024 attach/detach cycles pass; then one
more consumer attaches. -/
def wrapCollisionState : LsState := lsAttach (lsCycles 1024 (lsAttach lsInit))

/-- C7: the key-frame classifier returns `true` iff the buffer has at least
5 bytes and the byte at offset 3 or offset 4 belongs to
`{64, 66, 68, 78, 101, 103}`; in particular every buffer shorter than
5 bytes is classified as not a key frame. -/
theorem isIFrame_spec (data : Buf) :
    (isIFrame data = true ↔
      5 ≤ data.length ∧
        (data.getD 3 0 ∈ ([64, 66, 68, 78, 101, 103] : List Nat) ∨
          data.getD 4 0 ∈ ([64, 66, 68, 78, 101, 103] : List Nat))) ∧
      (data.length < 5 → isIFrame data = false) := by
  have hshort : data.length < 5 → isIFrame data = false := by
    intro hlt
    unfold isIFrame
    by_cases h0 : data.length > 0
    · simp [h0, show ¬ data.length ≥ 5 by omega]
    · simp [h0]
  refine ⟨?_, hshort⟩
  by_cases h5 : 5 ≤ data.length
  · have h0 : data.length > 0 := by omega
    have h3 : (data.take 5).getD 3 0 = data.getD 3 0 := by
      unfold List.getD
      rw [List.get?_take (by omega : (3:Nat) < 5)]
    have h4 : (data.take 5).getD 4 0 = data.getD 4 0 := by
      unfold List.getD
      rw [List.get?_take (by omega : (4:Nat) < 5)]
    unfold isIFrame
    simp only [if_pos h0, if_pos (show data.length ≥ 5 from h5), h3, h4,
      Bool.or_eq_true, List.elem_iff]
    simp [h5]
  · rw [hshort (by omega)]
    simp
    omega

/-- Witness for C7 at a concrete short buffer: `[0, 0, 101]` has fewer than
5 bytes and is classified as not a key frame. -/
theorem isIFrame_spec_witness : isIFrame [0, 0, 101] = false :=
  (isIFrame_spec [0, 0, 101]).2 (by decide)

/-- C3: when the last consumer detaches, a deferred stop after the
45-second grace period is scheduled exactly when caching is enabled and the
remaining duration exceeds `max (0.2 * maxSessionDuration) 20`, and exactly
one immediate stop is issued otherwise; with `maxSessionDuration = 100` and
caching enabled, elapsed 50 s defers and elapsed 85 s stops immediately. -/
theorem last_detach_termination_policy :
    (∀ (ps : List Nat) (id : Nat) (c : Bool) (maxD rt : ℚ),
        id ∈ ps → ps.erase id = [] →
          ((removeProxyStream ps id c maxD rt).2 =
              DetachAction.scheduleTermination SECONDS_UNTIL_TERMINATION_AFTER_LAST_USED ↔
            c = true ∧ maxD - rt > max (maxD * (0.2 : ℚ)) 20) ∧
          ((removeProxyStream ps id c maxD rt).2 = DetachAction.stopNow ↔
            ¬(c = true ∧ maxD - rt > max (maxD * (0.2 : ℚ)) 20))) ∧
      (removeProxyStream [7] 7 true 100 50).2 =
          DetachAction.scheduleTermination SECONDS_UNTIL_TERMINATION_AFTER_LAST_USED ∧
      (removeProxyStream [7] 7 true 100 85).2 = DetachAction.stopNow := by
  have hcond : ∀ (c : Bool) (maxD rt : ℚ),
      sufficientRemainingDuration c maxD rt = true ↔
        c = true ∧ maxD - rt > max (maxD * (0.2 : ℚ)) 20 := by
    intro c maxD rt
    unfold sufficientRemainingDuration
    simp only [Bool.and_eq_true, decide_eq_true_iff, sup_lt_iff, max_lt_iff]
    tauto
  have hgen : ∀ (ps : List Nat) (id : Nat) (c : Bool) (maxD rt : ℚ),
      id ∈ ps → ps.erase id = [] →
          ((removeProxyStream ps id c maxD rt).2 =
              DetachAction.scheduleTermination SECONDS_UNTIL_TERMINATION_AFTER_LAST_USED ↔
            c = true ∧ maxD - rt > max (maxD * (0.2 : ℚ)) 20) ∧
          ((removeProxyStream ps id c maxD rt).2 = DetachAction.stopNow ↔
            ¬(c = true ∧ maxD - rt > max (maxD * (0.2 : ℚ)) 20)) := by
    intro ps id c maxD rt hmem herase
    unfold removeProxyStream
    rw [if_pos hmem]
    simp only [herase, List.length_nil, if_pos rfl]
    by_cases hs : sufficientRemainingDuration c maxD rt = true
    · rw [if_pos hs]
      have h := (hcond c maxD rt).mp hs
      exact ⟨iff_of_true rfl h, iff_of_false (by simp) (not_not_intro h)⟩
    · rw [if_neg hs]
      have h : ¬(c = true ∧ maxD - rt > max (maxD * (0.2 : ℚ)) 20) :=
        fun hh => hs ((hcond c maxD rt).mpr hh)
      exact ⟨iff_of_false (by simp) h, iff_of_true rfl h⟩
  refine ⟨hgen, ?_, ?_⟩
  · exact (hgen [7] 7 true 100 50 (by decide) (by decide)).1.mpr ⟨rfl, by norm_num⟩
  · exact (hgen [7] 7 true 100 85 (by decide) (by decide)).2.mpr (by norm_num)

/-- Witness for C3: with the single consumer `7` detaching at
`maxSessionDuration = 100`, caching on and elapsed 50 s, the policy theorem
applies and yields the deferred-termination equivalence. -/
theorem last_detach_termination_policy_witness :
    (removeProxyStream [7] 7 true 100 50).2 =
        DetachAction.scheduleTermination SECONDS_UNTIL_TERMINATION_AFTER_LAST_USED ↔
      true = true ∧ (100 : ℚ) - 50 > max ((100 : ℚ) * (0.2 : ℚ)) 20 :=
  (last_detach_termination_policy.1 [7] 7 true 100 50 (by decide) (by decide)).1

/-- C10: the grace-termination timer callback issues an upstream stop
request exactly when the set of attached proxy streams is empty at the
moment it fires; with any consumer still attached, no stop is issued. -/
theorem grace_timer_stops_only_when_unused (proxyStreams : List Nat) :
    stopOnGraceTimer proxyStreams = true ↔ proxyStreams = [] := by
  unfold stopOnGraceTimer
  simp [List.length_eq_zero]

/-- After `n` attach calls with no session: the calls `0, …, n-1` are all
pending, none has failed, the starting flag is set iff `n > 0`, exactly
`min n 1` start requests were issued, and the single armed timer is owned by
the most recent call. -/
theorem attachCalls_state (n : Nat) :
    (attachCalls n).nextCall = n ∧
      (attachCalls n).pending = List.range n ∧
      (attachCalls n).failed = [] ∧
      (attachCalls n).livestreamIsStarting = decide (0 < n) ∧
      (attachCalls n).startRequests = min n 1 ∧
      (attachCalls n).connectionTimeout = (if n = 0 then Option.none else some (n - 1)) := by
  induction n with
  | zero => exact ⟨rfl, rfl, rfl, rfl, rfl, rfl⟩
  | succ m ih =>
    obtain ⟨h1, h2, h3, h4, h5, h6⟩ := ih
    unfold attachCalls startAndGetLocalLiveStream
    by_cases hm : (attachCalls m).livestreamIsStarting = true
    · have hm0 : 0 < m := by
        by_contra hc
        have hz : m = 0 := by omega
        rw [hz] at hm
        simp [attachCalls, startWaitInit] at hm
      rw [if_pos hm]
      refine ⟨by simp [h1], ?_, by simp [h3], by simp [hm], ?_, by simp [h1]⟩
      · simp [h1, h2, List.range_succ]
      · simp [h5]
        omega
    · have hm0 : m = 0 := by
        by_contra hc
        rw [h4] at hm
        simp at hm
        omega
      rw [if_neg hm]
      subst hm0
      refine ⟨by simp [h1], ?_, by simp [h3], by simp, ?_, by simp [h1]⟩
      · simp [h1, h2, List.range_succ]
      · simp [h5]

/-- C5: for any number `n + 1 ≥ 1` of attach calls issued while no session
exists and no start has yet completed or timed out, exactly one upstream
start request is issued, and the starting flag is set from the first call
on, so no later call issues a duplicate request. -/
theorem duplicate_attach_single_start_request (n : Nat) :
    (attachCalls (n + 1)).startRequests = 1 ∧
      (attachCalls (n + 1)).livestreamIsStarting = true := by
  obtain ⟨-, -, -, h4, h5, -⟩ := attachCalls_state (n + 1)
  constructor
  · rw [h5]; omega
  · rw [h4]; simp

/-- C4 as stated is false on the code: with two attach calls pending, the
second call cleared the first call's connection timer when arming its own
(source lines 220-222), so when the 5-second timeout fires only the second
call is rejected with `'no started livestream found'`; the first call is
never failed and stays pending. -/
theorem connectionTimeout_skips_earlier_pending :
    (connectionTimeoutFires (attachCalls 2)).failed =
        [(1, "no started livestream found")] ∧
      ¬ ((0, "no started livestream found") ∈ (connectionTimeoutFires (attachCalls 2)).failed) ∧
      (connectionTimeoutFires (attachCalls 2)).pending = [0] := by
  refine ⟨rfl, ?_, rfl⟩
  intro h
  simp [connectionTimeoutFires, attachCalls, startAndGetLocalLiveStream, startWaitInit] at h

/-- C4 amended: when the 5-second connection timeout fires with `n + 1`
attach calls pending, exactly the most recent call fails with the
`'no started livestream found'` (ConnectionTimeout) error and the starting
flag is cleared; the earlier `n` calls, whose timers were cancelled by later
calls, remain pending and are not failed. -/
theorem connectionTimeout_fails_most_recent_pending (n : Nat) :
    (connectionTimeoutFires (attachCalls (n + 1))).failed =
        [(n, "no started livestream found")] ∧
      (connectionTimeoutFires (attachCalls (n + 1))).livestreamIsStarting = false ∧
      (connectionTimeoutFires (attachCalls (n + 1))).pending = List.range n ∧
      (connectionTimeoutFires (attachCalls (n + 1))).connectionTimeout = Option.none := by
  obtain ⟨h1, h2, h3, h4, h5, h6⟩ := attachCalls_state (n + 1)
  simp only [Nat.succ_ne_zero, if_neg, Nat.add_sub_cancel] at h6
  unfold connectionTimeoutFires
  rw [h6]
  refine ⟨by simp [h3], rfl, ?_, rfl⟩
  have hn : n ∉ List.range n := by simp
  simp [h2, List.range_succ, List.erase_append_right _ hn]

/-- Draining moves a front part of the queue to the consumer and keeps the
rest: the two parts concatenate back to the original queue. -/
theorem drainQueue_split (q : List Buf) (c : Nat) :
    (drainQueue q c).1 ++ (drainQueue q c).2.1 = q := by
  induction q generalizing c with
  | nil => simp [drainQueue]
  | cons d rest ih =>
    cases c with
    | zero => simp [drainQueue]
    | succ c => simp [drainQueue, ih]

/-- If the final push of a drain returned `true`, the queue was emptied. -/
theorem drainQueue_emptied (q : List Buf) (c : Nat)
    (h : (drainQueue q c).2.2 = true) : (drainQueue q c).2.1 = [] := by
  induction q generalizing c with
  | nil => simp [drainQueue]
  | cons d rest ih =>
    cases c with
    | zero => simp [drainQueue] at h
    | succ c =>
      simp only [drainQueue] at h ⊢
      exact ih c h

/-- C8: after any sequence of produce and read events, the buffers delivered
to the consumer followed by the still-queued buffers are exactly the buffers
pushed to the outlet, in order — so delivery is FIFO with no reordering,
duplication or coalescing — and immediate-push mode is only ever on when the
queue is empty. -/
theorem outlet_delivers_in_order (ops : List OutletOp) :
    (runOutlet ops).delivered ++ (runOutlet ops).cacheData = (runOutlet ops).produced ∧
      ((runOutlet ops).pushNewDataImmediately = false ∨ (runOutlet ops).cacheData = []) := by
  have step : ∀ (st : OutletState) (op : OutletOp),
      st.delivered ++ st.cacheData = st.produced →
      (st.pushNewDataImmediately = false ∨ st.cacheData = []) →
      ((outletStep st op).delivered ++ (outletStep st op).cacheData = (outletStep st op).produced ∧
        ((outletStep st op).pushNewDataImmediately = false ∨ (outletStep st op).cacheData = [])) := by
    intro st op h1 h2
    cases op with
    | produce d =>
      by_cases him : st.pushNewDataImmediately = true
      · have hq : st.cacheData = [] := by
          rcases h2 with h2 | h2
          · rw [him] at h2; exact absurd h2 (by simp)
          · exact h2
        rw [hq, List.append_nil] at h1
        simp [outletStep, newOutletData, him, hq, h1]
      · simp only [Bool.not_eq_true] at him
        simp only [outletStep, newOutletData, him, if_neg Bool.false_ne_true]
        constructor
        · simp [← h1]
        · left; simp
    | consumerRead c =>
      simp only [outletStep, readOutlet]
      constructor
      · rw [List.append_assoc, drainQueue_split, h1]
      · by_cases hok : (drainQueue st.cacheData c).2.2 = true
        · exact Or.inr (drainQueue_emptied _ _ hok)
        · simp only [Bool.not_eq_true] at hok
          rw [hok]
          rcases h2 with h2 | h2
          · exact Or.inl (by simp [h2])
          · refine Or.inr ?_
            rw [h2]
            simp [drainQueue]
  have main : ∀ (ops : List OutletOp) (st : OutletState),
      st.delivered ++ st.cacheData = st.produced →
      (st.pushNewDataImmediately = false ∨ st.cacheData = []) →
      ((ops.foldl outletStep st).delivered ++ (ops.foldl outletStep st).cacheData =
          (ops.foldl outletStep st).produced ∧
        ((ops.foldl outletStep st).pushNewDataImmediately = false ∨
          (ops.foldl outletStep st).cacheData = [])) := by
    intro ops
    induction ops with
    | nil => intro st h1 h2; exact ⟨h1, h2⟩
    | cons op rest ih =>
      intro st h1 h2
      have h := step st op h1 h2
      exact ih _ h.1 h.2
  exact main ops outletInit rfl (Or.inl rfl)

/-- C1 fails on the code: `getProxyStream` hands the outlet the live
`iFrameCache` array by reference instead of a copy. At attach the cache
snapshot is `[kFrame]`; after one forwarded non-key-frame buffer the
outlet's pending queue is `[kFrame, pFrame, pFrame]` — the live-cache append
and the forward both landed in the shared array — instead of the snapshot
plus the one forwarded buffer; and the consumer draining its queue empties
the live cache itself. -/
theorem attach_seeds_alias_not_copy :
    aliasState2.proxyStreams.map (fun p => p.cacheRef) = [aliasState2.iFrameCacheRef] ∧
      getArr aliasState1 aliasState1.iFrameCacheRef = [kFrame] ∧
      aliasState3.proxyStreams.map (fun p => getArr aliasState3 p.cacheRef)
          = [[kFrame, pFrame, pFrame]] ∧
      [kFrame, pFrame, pFrame] ≠ [kFrame] ++ [pFrame] ∧
      getArr aliasState3 aliasState3.iFrameCacheRef ≠ [] ∧
      getArr aliasState4 aliasState4.iFrameCacheRef = [] := by
  decide

/-- C2 fails on the code: consumers A and B both attach after the key frame
was observed, with the cached sequence `[kFrame]`, but the two outlets share
the one live cache array, so A's drain removes `kFrame` from it and B
delivers nothing at all — not the cached sequence the claim promises every
such consumer. -/
theorem second_attacher_loses_cached_sequence :
    getArr aliasState2 aliasState2.iFrameCacheRef = [kFrame] ∧
      twoConsumersReadB.proxyStreams.map (fun p => p.delivered) = [[kFrame], []] ∧
      ([] : List Buf) ≠ [kFrame] := by
  decide

/-- C6 fails on the code: after the key frame `kFrame` and one later buffer
`pFrame`, the buffers received since the key frame are exactly `[pFrame]`,
so the invariant allows only `[]` or `[kFrame, pFrame]` — but the live cache
holds `[kFrame, pFrame, pFrame]`, because the attached outlet's queue
aliases the cache array and the fan-out appended `pFrame` a second time. -/
theorem iFrameCache_invariant_broken_by_alias :
    isIFrame kFrame = true ∧ isIFrame pFrame = false ∧
      getArr aliasState3 aliasState3.iFrameCacheRef = [kFrame, pFrame, pFrame] ∧
      [kFrame, pFrame, pFrame] ≠ ([] : List Buf) ∧
      [kFrame, pFrame, pFrame] ≠ [kFrame, pFrame] := by
  decide

/-- Reachable-state invariant of the id model: the counter equals the total
attach count modulo 1025, and every attached pair was issued the id equal to
its attach sequence number modulo 1025. -/
theorem lsRun_invariant (ops : List LsOp) :
    (lsRun ops).livestreamCount = (lsRun ops).attachSeq % 1025 ∧
      ∀ e ∈ (lsRun ops).attached, e.2 = e.1 % 1025 ∧ e.1 < (lsRun ops).attachSeq := by
  have step : ∀ (s : LsState) (op : LsOp),
      (s.livestreamCount = s.attachSeq % 1025 ∧
        ∀ e ∈ s.attached, e.2 = e.1 % 1025 ∧ e.1 < s.attachSeq) →
      ((lsStep s op).livestreamCount = (lsStep s op).attachSeq % 1025 ∧
        ∀ e ∈ (lsStep s op).attached, e.2 = e.1 % 1025 ∧ e.1 < (lsStep s op).attachSeq) := by
    intro s op h
    obtain ⟨hc, ha⟩ := h
    cases op with
    | attach =>
      constructor
      · simp only [lsStep, lsAttach]
        rw [hc]
        by_cases hgt : s.attachSeq % 1025 + 1 > 1024
        · rw [if_pos hgt]; omega
        · rw [if_neg hgt]; omega
      · intro e he
        simp only [lsStep, lsAttach, List.mem_append, List.mem_singleton] at he
        rcases he with he | he
        · have hk := ha e he
          simp only [lsStep, lsAttach]
          exact ⟨hk.1, by omega⟩
        · subst he
          simp only [lsStep, lsAttach]
          exact ⟨hc, by omega⟩
    | detach id =>
      refine ⟨hc, ?_⟩
      intro e he
      simp only [lsStep, lsDetach] at he
      exact ha e ((List.eraseP_sublist _).subset he)
  have main : ∀ (ops : List LsOp) (s : LsState),
      (s.livestreamCount = s.attachSeq % 1025 ∧
        ∀ e ∈ s.attached, e.2 = e.1 % 1025 ∧ e.1 < s.attachSeq) →
      ((ops.foldl lsStep s).livestreamCount = (ops.foldl lsStep s).attachSeq % 1025 ∧
        ∀ e ∈ (ops.foldl lsStep s).attached,
          e.2 = e.1 % 1025 ∧ e.1 < (ops.foldl lsStep s).attachSeq) := by
    intro ops
    induction ops with
    | nil => intro s h; exact h
    | cons op rest ih =>
      intro s h
      exact ih _ (step s op h)
  exact main ops lsInit ⟨rfl, by simp [lsInit]⟩

/-- C9 amended: after any sequence of attach/detach events, two attached
pairs whose attach events are fewer than 1025 attaches apart carry distinct
ids — so uniqueness holds whenever no consumer stays attached while 1025
further attaches occur, even across counter wraparound. -/
theorem attached_ids_distinct_within_window (ops : List LsOp) (e1 e2 : Nat × Nat)
    (h1 : e1 ∈ (lsRun ops).attached) (h2 : e2 ∈ (lsRun ops).attached)
    (hne : e1.1 ≠ e2.1) (hw1 : e1.1 < e2.1 + 1025) (hw2 : e2.1 < e1.1 + 1025) :
    e1.2 ≠ e2.2 := by
  obtain ⟨-, ha⟩ := lsRun_invariant ops
  have k1 := ha e1 h1
  have k2 := ha e2 h2
  omega

/-- Witness for the amended C9: with two attaches the two attached pairs
(0, 0) and (1, 1) are within the window and the theorem yields distinct
ids. -/
theorem attached_ids_distinct_within_window_witness :
    ((0, 0) : Nat × Nat).2 ≠ ((1, 1) : Nat × Nat).2 :=
  attached_ids_distinct_within_window [LsOp.attach, LsOp.attach] (0, 0) (1, 1)
    (by decide) (by decide) (by decide) (by decide) (by decide)

/-- An attach/detach cycle removes exactly the pair it attached, provided no
already-attached pair carries the id about to be issued. -/
theorem lsAttachDetach_keeps (s : LsState)
    (h : ∀ e ∈ s.attached, e.2 ≠ s.livestreamCount) :
    lsAttachDetach s =
      { livestreamCount := if s.livestreamCount + 1 > 1024 then 0 else s.livestreamCount + 1,
        attachSeq := s.attachSeq + 1, attached := s.attached } := by
  have he : (s.attached ++ [(s.attachSeq, s.livestreamCount)]).eraseP
      (fun e => e.2 == s.livestreamCount) = s.attached := by
    rw [List.eraseP_append_right]
    · simp
    · intro b hb
      simp [h b hb]
  simp [lsAttachDetach, lsAttach, lsDetach, he]

/-- Closed form for attach/detach cycling on top of one persistent consumer
holding id 0: the cycles leave the attached set untouched while the counter
advances modulo 1025. -/
theorem lsCycles_closed : ∀ (n : Nat) (s : LsState),
    s.attached = [(0, 0)] →
    s.livestreamCount = s.attachSeq % 1025 →
    1 ≤ s.attachSeq → s.attachSeq + n ≤ 1025 →
    lsCycles n s =
      { livestreamCount := (s.attachSeq + n) % 1025, attachSeq := s.attachSeq + n,
        attached := [(0, 0)] } := by
  intro n
  induction n with
  | zero =>
    intro s h1 h2 h3 h4
    cases s with
    | mk c q a =>
      simp only [lsCycles, LsState.mk.injEq] at *
      refine ⟨by omega, by omega, h1⟩
  | succ m ih =>
    intro s h1 h2 h3 h4
    have hid : ∀ e ∈ s.attached, e.2 ≠ s.livestreamCount := by
      intro e he
      rw [h1] at he
      simp only [List.mem_singleton] at he
      subst he
      rw [h2]
      simp only []
      omega
    show lsCycles m (lsAttachDetach s) = _
    rw [lsAttachDetach_keeps s hid]
    have hcount : (if s.livestreamCount + 1 > 1024 then 0 else s.livestreamCount + 1)
        = (s.attachSeq + 1) % 1025 := by
      rw [h2]
      by_cases hgt : s.attachSeq % 1025 + 1 > 1024
      · rw [if_pos hgt]; omega
      · rw [if_neg hgt]; omega
    rw [ih { livestreamCount := if s.livestreamCount + 1 > 1024 then 0
               else s.livestreamCount + 1,
             attachSeq := s.attachSeq + 1, attached := s.attached }
        h1 hcount (show 1 ≤ s.attachSeq + 1 by omega)
        (show s.attachSeq + 1 + m ≤ 1025 by omega)]
    show ({ livestreamCount := (s.attachSeq + 1 + m) % 1025, attachSeq := s.attachSeq + 1 + m,
            attached := [(0, 0)] } : LsState) = _
    congr 1
    · omega
    · omega

/-- C9 as stated is false on the code: a consumer that attaches first (id 0)
and stays attached through 1024 attach/detach cycles collides with the
consumer attached next, because the counter has wrapped and issues id 0
again — the attached set then carries the duplicate ids [0, 0]. -/
theorem attached_ids_collide_after_wrap :
    wrapCollisionState.attached.map (fun e => e.2) = [0, 0] ∧
      ¬ (wrapCollisionState.attached.map (fun e => e.2)).Nodup ∧
      wrapCollisionState.attached.map (fun e => e.1) = [0, 1025] := by
  have h1 : lsAttach lsInit =
      { livestreamCount := 1, attachSeq := 1, attached := [(0, 0)] } := rfl
  have h2 : lsCycles 1024 (lsAttach lsInit) =
      { livestreamCount := 0, attachSeq := 1025, attached := [(0, 0)] } := by
    rw [h1, lsCycles_closed 1024 _ rfl rfl (by decide) (by decide)]
    rfl
  unfold wrapCollisionState
  rw [h2]
  decide
